import Mathlib

/-!
Shallow embedding of `src/cloudflare-worker/guidedog-worker.js`, the only
executable component of the repository: a stateless HTTP proxy that routes
inbound requests by path to the OpenAI or Anthropic API, injecting the
configured API key and adding permissive CORS headers.

Modelling choices, all taken from the source:
* A JS `Headers` bag is a list of name/value pairs; `get`, `set` and
  `delete` compare names case-insensitively via `lowerName`, matching
  the case-insensitive semantics of the Fetch API `Headers` class. The
  claims only observe a header bag through `get`, so storing names as given
  rather than lowercased is observationally identical.
* The worker's single `await fetch(...)` upstream call is modelled by an
  oracle `doFetch : UpstreamRequest → FetchResult` passed to the handler;
  the handler also returns the list of upstream requests it issued, so that
  "exactly one upstream call" and "no upstream call" are statable.
* `new Date().toISOString()` is a `now : String` parameter.
* The inbound request carries `url.pathname` directly as `path` (URL
  parsing itself is not the subject of any claim).
* JS string `startsWith` and the first-occurrence `String.replace` are
  implemented on character lists (`listIsPre`, `listReplaceFirst`).
* The JS truthiness test `!KEY` on an env secret is true when the secret is
  absent (`undefined`) or the empty string (`falsyKey`).
* `JSON.stringify` bodies are kept structured (`JValue`) rather than
  serialized; the claims speak of "a JSON body containing key …".
-/

namespace Guidedog

/-- JS `pat.isPrefixOf s`-style boolean prefix test on char lists. -/
def listIsPre : List Char → List Char → Bool
  | [], _ => true
  | _ :: _, [] => false
  | a :: as, b :: bs => a == b && listIsPre as bs

/-- JS `s.startsWith(pre)`. -/
def strStartsWith (s pre : String) : Bool :=
  listIsPre pre.data s.data

/-- Replace the first occurrence of `pat` in the list by `repl`
(JS `String.prototype.replace` with a string pattern). -/
def listReplaceFirst : List Char → List Char → List Char → List Char
  | [], _, _ => []
  | c :: rest, pat, repl =>
    if listIsPre pat (c :: rest) then repl ++ (c :: rest).drop pat.length
    else c :: listReplaceFirst rest pat repl

/-- JS `s.replace(pat, repl)` (first occurrence only). -/
def strReplaceFirst (s pat repl : String) : String :=
  ⟨listReplaceFirst s.data pat.data repl.data⟩

/-- Lowercasing of a header name, as the Fetch-API `Headers` class is
case-insensitive (it lowercases header names). -/
def lowerName (s : String) : String := ⟨s.data.map Char.toLower⟩

/-- A Fetch-API style header bag: name/value pairs, names compared
case-insensitively. -/
structure HeaderMap where
  entries : List (String × String)
deriving DecidableEq

/-- `headers.get(name)`: first value whose stored name matches `name`
case-insensitively. -/
def HeaderMap.get (h : HeaderMap) (name : String) : Option String :=
  (h.entries.find? (fun e => lowerName e.1 == lowerName name)).map Prod.snd

/-- `headers.set(name, value)`: drop any entry with the same
case-insensitive name, then add the pair. -/
def HeaderMap.set (h : HeaderMap) (name value : String) : HeaderMap :=
  ⟨h.entries.filter (fun e => !(lowerName e.1 == lowerName name)) ++ [(name, value)]⟩

/-- `headers.delete(name)`. -/
def HeaderMap.delete (h : HeaderMap) (name : String) : HeaderMap :=
  ⟨h.entries.filter (fun e => !(lowerName e.1 == lowerName name))⟩

/-- Build a header bag from a literal object (`new Headers({...})`). -/
def HeaderMap.ofList (l : List (String × String)) : HeaderMap :=
  l.foldl (fun h kv => h.set kv.1 kv.2) ⟨[]⟩

/-- Structured JSON value, enough for the worker's `JSON.stringify` bodies. -/
inductive JValue where
  | str (s : String)
  | obj (fields : List (String × JValue))

/-- Object field lookup. -/
def JValue.getField : JValue → String → Option JValue
  | .obj fields, k => (fields.find? (fun f => f.1 == k)).map Prod.snd
  | .str _, _ => none

/-- Body of a worker `Response`: `null`, a `JSON.stringify`-ed value, or a
relayed upstream body stream. -/
inductive RespBody where
  | empty
  | json (v : JValue)
  | stream (b : Option String)

/-- The worker's outgoing HTTP response. -/
structure Response where
  status : Nat
  statusText : String
  headers : HeaderMap
  body : RespBody

/-- The single upstream `fetch` call's arguments. -/
structure UpstreamRequest where
  url : String
  method : String
  headers : HeaderMap
  body : Option String
deriving DecidableEq

/-- What upstream `fetch` resolved to on success. -/
structure UpstreamResponse where
  status : Nat
  statusText : String
  headers : HeaderMap
  body : Option String
deriving DecidableEq

/-- Outcome of the awaited upstream `fetch`: a response, or a thrown error
caught by the handler's `catch (error)` with `error.message`. -/
inductive FetchResult where
  | ok (resp : UpstreamResponse)
  | err (message : String)

/-- Worker env bindings: the two secrets, each possibly unset. -/
structure Env where
  OPENAI_API_KEY : Option String
  ANTHROPIC_API_KEY : Option String

/-- JS truthiness test `!KEY` for an env secret: true when the secret is
`undefined` or the empty string. -/
def falsyKey : Option String → Bool
  | none => true
  | some s => s.isEmpty

/-- The inbound HTTP request as the worker observes it. -/
structure Request where
  method : String
  path : String
  headers : HeaderMap
  body : Option String

/-- `corsHeaders` object of the source. -/
def corsHeaders : List (String × String) :=
  [("Access-Control-Allow-Origin", "*"),
   ("Access-Control-Allow-Methods", "GET, POST, PUT, DELETE, OPTIONS"),
   ("Access-Control-Allow-Headers", "Content-Type, Authorization, X-Requested-With")]

/-- Headers object `{ 'Content-Type': 'application/json', ...corsHeaders }`. -/
def jsonCorsHeaders : HeaderMap :=
  HeaderMap.ofList (("Content-Type", "application/json") :: corsHeaders)

/-- `handleCORS()`: 204, null body, only the CORS headers. -/
def handleCORS : Response :=
  { status := 204, statusText := "",
    headers := HeaderMap.ofList corsHeaders, body := .empty }

/-- The 500 body/response built when a required secret is missing
(`error: 'Configuration Error'`, provider-specific message). -/
def configErrorResponse (message : String) : Response :=
  { status := 500, statusText := "",
    headers := jsonCorsHeaders,
    body := .json (.obj
      [("error", .str "Configuration Error"), ("message", .str message)]) }

/-- The 502 response built in the `catch` block (`error: 'Proxy Error'`,
message from the thrown error). -/
def proxyErrorResponse (message : String) : Response :=
  { status := 502, statusText := "",
    headers := jsonCorsHeaders,
    body := .json (.obj
      [("error", .str "Proxy Error"), ("message", .str message)]) }

/-- `new Response(response.body, {status, statusText, headers})` with the
CORS headers set onto a copy of the upstream response headers. -/
def relayResponse (response : UpstreamResponse) : Response :=
  { status := response.status, statusText := response.statusText,
    headers := corsHeaders.foldl (fun h kv => h.set kv.1 kv.2) response.headers,
    body := .stream response.body }

/-- The health-check JSON response of the `/` and `/health` branch. -/
def healthResponse (now : String) : Response :=
  { status := 200, statusText := "",
    headers := jsonCorsHeaders,
    body := .json (.obj
      [("status", .str "ok"),
       ("service", .str "guidedog"),
       ("timestamp", .str now),
       ("endpoints", .obj
         [("openai", .str "/v1/*"),
          ("anthropic", .str "/anthropic/*")])]) }

/-- The 404 JSON response of the fall-through branch. -/
def notFoundResponse : Response :=
  { status := 404, statusText := "",
    headers := jsonCorsHeaders,
    body := .json (.obj
      [("error", .str "Not Found"),
       ("message", .str "Use /v1/* for OpenAI or /anthropic/* for Anthropic")]) }

/-- `handleOpenAI(request, env, path)`: missing-key check, header rewrite,
one upstream call, relay or 502. Returns the upstream calls made paired
with the response. -/
def handleOpenAI (request : Request) (env : Env) (path : String)
    (doFetch : UpstreamRequest → FetchResult) : List UpstreamRequest × Response :=
  if falsyKey env.OPENAI_API_KEY then
    ([], configErrorResponse "OPENAI_API_KEY not configured in worker secrets")
  else
    let key := env.OPENAI_API_KEY.getD ""
    let openaiUrl := "https://api.openai.com" ++ path
    let headers :=
      (request.headers.set "Authorization" ("Bearer " ++ key)).delete "Host"
    let ureq : UpstreamRequest :=
      { url := openaiUrl, method := request.method, headers := headers,
        body := if request.method != "GET" then request.body else none }
    match doFetch ureq with
    | .ok response => ([ureq], relayResponse response)
    | .err msg => ([ureq], proxyErrorResponse msg)

/-- `handleAnthropic(request, env, path)`: like `handleOpenAI` but the
`/anthropic` prefix is stripped and provider headers differ. -/
def handleAnthropic (request : Request) (env : Env) (path : String)
    (doFetch : UpstreamRequest → FetchResult) : List UpstreamRequest × Response :=
  if falsyKey env.ANTHROPIC_API_KEY then
    ([], configErrorResponse "ANTHROPIC_API_KEY not configured in worker secrets")
  else
    let key := env.ANTHROPIC_API_KEY.getD ""
    let anthropicPath := strReplaceFirst path "/anthropic" ""
    let anthropicUrl := "https://api.anthropic.com" ++ anthropicPath
    let headers :=
      ((request.headers.set "x-api-key" key).set "anthropic-version" "2023-06-01").delete "Host"
    let ureq : UpstreamRequest :=
      { url := anthropicUrl, method := request.method, headers := headers,
        body := if request.method != "GET" then request.body else none }
    match doFetch ureq with
    | .ok response => ([ureq], relayResponse response)
    | .err msg => ([ureq], proxyErrorResponse msg)

/-- The default export's `fetch(request, env, ctx)` entry point. -/
def workerFetch (request : Request) (env : Env)
    (doFetch : UpstreamRequest → FetchResult) (now : String) :
    List UpstreamRequest × Response :=
  if request.method == "OPTIONS" then
    ([], handleCORS)
  else
    let path := request.path
    if path == "/health" || path == "/" then
      ([], healthResponse now)
    else if strStartsWith path "/v1/" then
      handleOpenAI request env path doFetch
    else if strStartsWith path "/anthropic/" then
      handleAnthropic request env path doFetch
    else
      ([], notFoundResponse)

/-! ### Header-bag lemmas -/

lemma find?_filter_of_imp {α : Type} (l : List α) (p q : α → Bool)
    (h : ∀ x, q x = false → p x = false) :
    (l.filter q).find? p = l.find? p := by
  induction l with
  | nil => rfl
  | cons a l ih =>
    rcases hq : q a with _ | _
    · have hp := h a hq
      simp [List.filter_cons, hq, List.find?_cons, hp, ih]
    · rcases hp : p a with _ | _ <;>
        simp [List.filter_cons, hq, List.find?_cons, hp, ih]

lemma HeaderMap.get_set_self (h : HeaderMap) (n v m : String)
    (hnm : lowerName m = lowerName n) :
    (h.set n v).get m = some v := by
  unfold HeaderMap.get HeaderMap.set
  rw [List.find?_append]
  have hnone :
      (h.entries.filter (fun e => !(lowerName e.1 == lowerName n))).find?
        (fun e => lowerName e.1 == lowerName m) = none := by
    rw [List.find?_eq_none]
    intro x hx
    rcases List.mem_filter.mp hx with ⟨_, hq⟩
    simp only [Bool.not_eq_true', beq_eq_false_iff_ne] at hq
    simp [hnm, hq]
  rw [hnone]
  simp [List.find?_cons, hnm]

lemma HeaderMap.get_set_other (h : HeaderMap) (n v m : String)
    (hnm : lowerName m ≠ lowerName n) :
    (h.set n v).get m = h.get m := by
  unfold HeaderMap.get HeaderMap.set
  rw [List.find?_append]
  rw [find?_filter_of_imp _ _ _ ?imp]
  case imp =>
    intro x hx
    simp only [Bool.not_eq_false', beq_iff_eq] at hx
    simp only [hx, beq_eq_false_iff_ne]
    intro hh
    exact hnm hh.symm
  have hb : (lowerName n == lowerName m) = false := by
    rw [beq_eq_false_iff_ne]
    intro hh
    exact hnm hh.symm
  rcases hf : h.entries.find? (fun e => lowerName e.1 == lowerName m) with _ | e <;>
    simp [List.find?_cons, hf, hb]

lemma HeaderMap.get_delete_self (h : HeaderMap) (n m : String)
    (hnm : lowerName m = lowerName n) :
    (h.delete n).get m = none := by
  unfold HeaderMap.get HeaderMap.delete
  rw [List.find?_eq_none.mpr]
  · rfl
  · intro x hx
    rcases List.mem_filter.mp hx with ⟨_, hq⟩
    simp only [Bool.not_eq_true', beq_eq_false_iff_ne] at hq
    simp [hnm, hq]

lemma HeaderMap.get_delete_other (h : HeaderMap) (n m : String)
    (hnm : lowerName m ≠ lowerName n) :
    (h.delete n).get m = h.get m := by
  unfold HeaderMap.get HeaderMap.delete
  rw [find?_filter_of_imp _ _ _ ?imp]
  case imp =>
    intro x hx
    simp only [Bool.not_eq_false', beq_iff_eq] at hx
    simp only [hx, beq_eq_false_iff_ne]
    intro hh
    exact hnm hh.symm

/-! ### Prefix lemmas -/

lemma listIsPre_iff (p l : List Char) :
    listIsPre p l = true ↔ ∃ t, l = p ++ t := by
  induction p generalizing l with
  | nil => simp [listIsPre]
  | cons a as ih =>
    cases l with
    | nil => simp [listIsPre]
    | cons b bs =>
      simp only [listIsPre, Bool.and_eq_true, beq_iff_eq, ih, List.cons_append,
        List.cons.injEq]
      constructor
      · rintro ⟨hab, t, ht⟩
        exact ⟨t, hab.symm, ht⟩
      · rintro ⟨t, hab, ht⟩
        exact ⟨hab.symm, t, ht⟩

lemma strStartsWith_of_append (pre rest : String) :
    strStartsWith (pre ++ rest) pre = true := by
  unfold strStartsWith
  rw [listIsPre_iff]
  exact ⟨rest.data, rfl⟩

/-- A path starting with `/anthropic/` does not start with `/v1/`. -/
lemma not_v1_of_anthropic (p : String)
    (h : strStartsWith p "/anthropic/" = true) :
    strStartsWith p "/v1/" = false := by
  unfold strStartsWith at h ⊢
  rcases (listIsPre_iff _ _).mp h with ⟨t, ht⟩
  rw [ht]
  rfl

/-- A path starting with `/v1/` is neither `/health` nor `/`. -/
lemma v1_route_excl (p : String) (h : strStartsWith p "/v1/" = true) :
    (p == "/health") = false ∧ (p == "/") = false := by
  constructor
  · rcases hb : p == "/health" with _ | _
    · rfl
    · rw [show p = "/health" from beq_iff_eq.mp hb] at h
      exact absurd h (by decide)
  · rcases hb : p == "/" with _ | _
    · rfl
    · rw [show p = "/" from beq_iff_eq.mp hb] at h
      exact absurd h (by decide)

/-- A path starting with `/anthropic/` is neither `/health` nor `/`. -/
lemma anthropic_route_excl (p : String)
    (h : strStartsWith p "/anthropic/" = true) :
    (p == "/health") = false ∧ (p == "/") = false := by
  constructor
  · rcases hb : p == "/health" with _ | _
    · rfl
    · rw [show p = "/health" from beq_iff_eq.mp hb] at h
      exact absurd h (by decide)
  · rcases hb : p == "/" with _ | _
    · rfl
    · rw [show p = "/" from beq_iff_eq.mp hb] at h
      exact absurd h (by decide)

/-- Stripping the `/anthropic` prefix from `/anthropic/rest` leaves `/rest`. -/
lemma strReplaceFirst_anthropic (rest : String) :
    strReplaceFirst ("/anthropic/" ++ rest) "/anthropic" "" = "/" ++ rest := by
  unfold strReplaceFirst
  have hdata : ("/anthropic/" ++ rest).data = "/anthropic/".data ++ rest.data := rfl
  rw [hdata]
  have : listReplaceFirst ("/anthropic/".data ++ rest.data) "/anthropic".data [] =
      '/' :: rest.data := by
    show listReplaceFirst ('/' :: ("anthropic/".data ++ rest.data))
        "/anthropic".data [] = '/' :: rest.data
    rw [listReplaceFirst]
    have hpre : listIsPre "/anthropic".data
        ('/' :: ("anthropic/".data ++ rest.data)) = true := by
      rw [listIsPre_iff]
      exact ⟨'/' :: rest.data, rfl⟩
    rw [if_pos hpre]
    simp [List.drop_append_of_le_length]
  rw [this]
  rfl

/-! ### CORS helpers -/

/-- The response carries the full CORS header set of the source. -/
def hasCorsHeaders (h : HeaderMap) : Prop :=
  h.get "Access-Control-Allow-Origin" = some "*" ∧
  h.get "Access-Control-Allow-Methods" = some "GET, POST, PUT, DELETE, OPTIONS" ∧
  h.get "Access-Control-Allow-Headers" = some "Content-Type, Authorization, X-Requested-With"

lemma corsFold_eq (h : HeaderMap) :
    corsHeaders.foldl (fun h kv => h.set kv.1 kv.2) h =
      ((h.set "Access-Control-Allow-Origin" "*").set
        "Access-Control-Allow-Methods" "GET, POST, PUT, DELETE, OPTIONS").set
        "Access-Control-Allow-Headers" "Content-Type, Authorization, X-Requested-With" :=
  rfl

lemma hasCors_corsFold (h : HeaderMap) :
    hasCorsHeaders (corsHeaders.foldl (fun h kv => h.set kv.1 kv.2) h) := by
  rw [corsFold_eq]
  refine ⟨?_, ?_, ?_⟩
  · rw [HeaderMap.get_set_other _ _ _ _ (by decide),
      HeaderMap.get_set_other _ _ _ _ (by decide),
      HeaderMap.get_set_self _ _ _ _ (by decide)]
  · rw [HeaderMap.get_set_other _ _ _ _ (by decide),
      HeaderMap.get_set_self _ _ _ _ (by decide)]
  · rw [HeaderMap.get_set_self _ _ _ _ (by decide)]

lemma hasCors_jsonCorsHeaders : hasCorsHeaders jsonCorsHeaders := by
  refine ⟨?_, ?_, ?_⟩ <;> decide

lemma hasCors_corsOnly : hasCorsHeaders (HeaderMap.ofList corsHeaders) := by
  refine ⟨?_, ?_, ?_⟩ <;> decide

lemma beq_false_of_ne {s t : String} (h : s ≠ t) : (s == t) = false :=
  beq_eq_false_iff_ne.mpr h

/-! ### Branch-selection lemmas for `workerFetch` -/

lemma workerFetch_options (request : Request) (env : Env)
    (doFetch : UpstreamRequest → FetchResult) (now : String)
    (hm : request.method = "OPTIONS") :
    workerFetch request env doFetch now = ([], handleCORS) := by
  simp [workerFetch, hm]

lemma workerFetch_v1 (request : Request) (env : Env)
    (doFetch : UpstreamRequest → FetchResult) (now : String)
    (hm : request.method ≠ "OPTIONS")
    (hp : strStartsWith request.path "/v1/" = true) :
    workerFetch request env doFetch now =
      handleOpenAI request env request.path doFetch := by
  simp [workerFetch, beq_false_of_ne hm, hp,
    (v1_route_excl _ hp).1, (v1_route_excl _ hp).2]

lemma workerFetch_anthropic (request : Request) (env : Env)
    (doFetch : UpstreamRequest → FetchResult) (now : String)
    (hm : request.method ≠ "OPTIONS")
    (hp : strStartsWith request.path "/anthropic/" = true) :
    workerFetch request env doFetch now =
      handleAnthropic request env request.path doFetch := by
  simp [workerFetch, beq_false_of_ne hm, hp, not_v1_of_anthropic _ hp,
    (anthropic_route_excl _ hp).1, (anthropic_route_excl _ hp).2]

/-! ### Reading a three-entry header bag at an arbitrary name -/

lemma get_triple (k1 v1 k2 v2 k3 v3 name : String) :
    HeaderMap.get ⟨[(k1, v1), (k2, v2), (k3, v3)]⟩ name =
      if lowerName name = lowerName k1 then some v1
      else if lowerName name = lowerName k2 then some v2
      else if lowerName name = lowerName k3 then some v3
      else none := by
  unfold HeaderMap.get
  by_cases h1 : lowerName name = lowerName k1
  · have hb : (lowerName k1 == lowerName name) = true := beq_iff_eq.mpr h1.symm
    simp [List.find?_cons, hb, h1]
  · have e1 : (lowerName k1 == lowerName name) = false :=
      beq_eq_false_iff_ne.mpr (fun hh => h1 hh.symm)
    by_cases h2 : lowerName name = lowerName k2
    · have hb : (lowerName k2 == lowerName name) = true := beq_iff_eq.mpr h2.symm
      have e1' : (lowerName k1 == lowerName k2) = false := h2 ▸ e1
      have h1' : ¬lowerName k2 = lowerName k1 := h2 ▸ h1
      simp [List.find?_cons, e1, e1', hb, h1, h1', h2]
    · have e2 : (lowerName k2 == lowerName name) = false :=
        beq_eq_false_iff_ne.mpr (fun hh => h2 hh.symm)
      by_cases h3 : lowerName name = lowerName k3
      · have hb : (lowerName k3 == lowerName name) = true := beq_iff_eq.mpr h3.symm
        have e1' : (lowerName k1 == lowerName k3) = false := h3 ▸ e1
        have e2' : (lowerName k2 == lowerName k3) = false := h3 ▸ e2
        have h1' : ¬lowerName k3 = lowerName k1 := h3 ▸ h1
        have h2' : ¬lowerName k3 = lowerName k2 := h3 ▸ h2
        simp [List.find?_cons, e1, e1', e2, e2', hb, h1, h1', h2, h2', h3]
      · have e3 : (lowerName k3 == lowerName name) = false :=
          beq_eq_false_iff_ne.mpr (fun hh => h3 hh.symm)
        simp [List.find?_cons, e1, e2, e3, h1, h2, h3]

lemma corsOnly_entries : HeaderMap.ofList corsHeaders =
    ⟨[("Access-Control-Allow-Origin", "*"),
      ("Access-Control-Allow-Methods", "GET, POST, PUT, DELETE, OPTIONS"),
      ("Access-Control-Allow-Headers", "Content-Type, Authorization, X-Requested-With")]⟩ :=
  rfl

lemma corsLower1 :
    lowerName "Access-Control-Allow-Origin" = "access-control-allow-origin" := rfl

lemma corsLower2 :
    lowerName "Access-Control-Allow-Methods" = "access-control-allow-methods" := rfl

lemma corsLower3 :
    lowerName "Access-Control-Allow-Headers" = "access-control-allow-headers" := rfl

lemma bool_false_of_not_true {b : Bool} (h : ¬b = true) : b = false := by
  rcases b with _ | _
  · rfl
  · exact absurd rfl h

lemma str_append_assoc (a b c : String) : a ++ b ++ c = a ++ (b ++ c) := by
  show String.mk (a.data ++ b.data ++ c.data) =
    String.mk (a.data ++ (b.data ++ c.data))
  rw [List.append_assoc]

lemma workerFetch_health (request : Request) (env : Env)
    (doFetch : UpstreamRequest → FetchResult) (now : String)
    (hm : request.method ≠ "OPTIONS")
    (hp : request.path = "/health" ∨ request.path = "/") :
    workerFetch request env doFetch now = ([], healthResponse now) := by
  have h1 : (request.method == "OPTIONS") = false := beq_false_of_ne hm
  have h2 : (request.path == "/health" || request.path == "/") = true := by
    rcases hp with hp | hp <;> rw [hp] <;> rfl
  simp [workerFetch, h1, h2]

lemma workerFetch_notFound (request : Request) (env : Env)
    (doFetch : UpstreamRequest → FetchResult) (now : String)
    (hm : request.method ≠ "OPTIONS")
    (h1 : strStartsWith request.path "/v1/" = false)
    (h2 : strStartsWith request.path "/anthropic/" = false)
    (h3 : request.path ≠ "/") (h4 : request.path ≠ "/health") :
    workerFetch request env doFetch now = ([], notFoundResponse) := by
  have hb : (request.method == "OPTIONS") = false := beq_false_of_ne hm
  have hh : (request.path == "/health" || request.path == "/") = false := by
    rw [beq_false_of_ne h4, beq_false_of_ne h3]
    rfl
  simp [workerFetch, hb, hh, h1, h2]

lemma handleOpenAI_calls (request : Request) (env : Env) (path : String)
    (doFetch : UpstreamRequest → FetchResult)
    (hfal : falsyKey env.OPENAI_API_KEY = false) :
    (handleOpenAI request env path doFetch).1 =
      [{ url := "https://api.openai.com" ++ path, method := request.method,
         headers := (request.headers.set "Authorization"
           ("Bearer " ++ env.OPENAI_API_KEY.getD "")).delete "Host",
         body := if request.method != "GET" then request.body else none }] := by
  simp only [handleOpenAI, hfal]
  split
  · rename_i h
    exact absurd h (by decide)
  · split <;> rfl

lemma handleAnthropic_calls (request : Request) (env : Env) (path : String)
    (doFetch : UpstreamRequest → FetchResult)
    (hfal : falsyKey env.ANTHROPIC_API_KEY = false) :
    (handleAnthropic request env path doFetch).1 =
      [{ url := "https://api.anthropic.com" ++ strReplaceFirst path "/anthropic" "",
         method := request.method,
         headers := ((request.headers.set "x-api-key"
             (env.ANTHROPIC_API_KEY.getD "")).set
           "anthropic-version" "2023-06-01").delete "Host",
         body := if request.method != "GET" then request.body else none }] := by
  simp only [handleAnthropic, hfal]
  split
  · rename_i h
    exact absurd h (by decide)
  · split <;> rfl

lemma hasCors_handleOpenAI (request : Request) (env : Env) (path : String)
    (doFetch : UpstreamRequest → FetchResult) :
    hasCorsHeaders (handleOpenAI request env path doFetch).2.headers := by
  simp only [handleOpenAI]
  split
  · exact hasCors_jsonCorsHeaders
  · split
    · exact hasCors_corsFold _
    · exact hasCors_jsonCorsHeaders

lemma hasCors_handleAnthropic (request : Request) (env : Env) (path : String)
    (doFetch : UpstreamRequest → FetchResult) :
    hasCorsHeaders (handleAnthropic request env path doFetch).2.headers := by
  simp only [handleAnthropic]
  split
  · exact hasCors_jsonCorsHeaders
  · split
    · exact hasCors_corsFold _
    · exact hasCors_jsonCorsHeaders

lemma get_corsFold (h : HeaderMap) (name : String) :
    (corsHeaders.foldl (fun h kv => h.set kv.1 kv.2) h).get name =
      if lowerName name = "access-control-allow-origin" then some "*"
      else if lowerName name = "access-control-allow-methods" then
        some "GET, POST, PUT, DELETE, OPTIONS"
      else if lowerName name = "access-control-allow-headers" then
        some "Content-Type, Authorization, X-Requested-With"
      else h.get name := by
  rw [corsFold_eq]
  by_cases h1 : lowerName name = "access-control-allow-origin"
  · have n2 : lowerName name ≠ lowerName "Access-Control-Allow-Methods" := by
      rw [corsLower2, h1]; decide
    have n3 : lowerName name ≠ lowerName "Access-Control-Allow-Headers" := by
      rw [corsLower3, h1]; decide
    rw [HeaderMap.get_set_other _ _ _ _ n3, HeaderMap.get_set_other _ _ _ _ n2,
      HeaderMap.get_set_self _ _ _ _ (by rw [corsLower1]; exact h1), if_pos h1]
  · by_cases h2 : lowerName name = "access-control-allow-methods"
    · have n3 : lowerName name ≠ lowerName "Access-Control-Allow-Headers" := by
        rw [corsLower3, h2]; decide
      rw [HeaderMap.get_set_other _ _ _ _ n3,
        HeaderMap.get_set_self _ _ _ _ (by rw [corsLower2]; exact h2),
        if_neg h1, if_pos h2]
    · by_cases h3 : lowerName name = "access-control-allow-headers"
      · rw [HeaderMap.get_set_self _ _ _ _ (by rw [corsLower3]; exact h3),
          if_neg h1, if_neg h2, if_pos h3]
      · rw [HeaderMap.get_set_other _ _ _ _ (by rw [corsLower3]; exact h3),
          HeaderMap.get_set_other _ _ _ _ (by rw [corsLower2]; exact h2),
          HeaderMap.get_set_other _ _ _ _ (by rw [corsLower1]; exact h1),
          if_neg h1, if_neg h2, if_neg h3]

/-! ### Claim theorems -/

/-- C7: every OPTIONS request, regardless of path and of any configured
keys, gets status 204, an empty body, headers consisting of only the CORS
header set, and no upstream call is made. -/
theorem options_preflight (request : Request) (env : Env)
    (doFetch : UpstreamRequest → FetchResult) (now : String)
    (hm : request.method = "OPTIONS") :
    (workerFetch request env doFetch now).1 = [] ∧
    (workerFetch request env doFetch now).2.status = 204 ∧
    (workerFetch request env doFetch now).2.body = RespBody.empty ∧
    ∀ name : String,
      (workerFetch request env doFetch now).2.headers.get name =
        if lowerName name = "access-control-allow-origin" then some "*"
        else if lowerName name = "access-control-allow-methods" then
          some "GET, POST, PUT, DELETE, OPTIONS"
        else if lowerName name = "access-control-allow-headers" then
          some "Content-Type, Authorization, X-Requested-With"
        else none := by
  rw [workerFetch_options request env doFetch now hm]
  refine ⟨rfl, rfl, rfl, ?_⟩
  intro name
  show HeaderMap.get (HeaderMap.ofList corsHeaders) name = _
  rw [corsOnly_entries, get_triple, corsLower1, corsLower2, corsLower3]

theorem options_preflight_witness :
    (workerFetch ⟨"OPTIONS", "/v1/chat/completions", ⟨[]⟩, none⟩
      ⟨some "sk-test", none⟩ (fun _ => FetchResult.err "down") "t").2.status
      = 204 :=
  (options_preflight _ _ _ _ rfl).2.1

/-- C8: every GET request to `/` or `/health` gets status 200 and a JSON
body with keys `status`, `service`, `timestamp` and `endpoints`, with
`endpoints.openai = "/v1/*"` and `endpoints.anthropic = "/anthropic/*"`,
and no upstream call is made. -/
theorem health_check_contract (request : Request) (env : Env)
    (doFetch : UpstreamRequest → FetchResult) (now : String)
    (hm : request.method = "GET")
    (hp : request.path = "/" ∨ request.path = "/health") :
    (workerFetch request env doFetch now).1 = [] ∧
    (workerFetch request env doFetch now).2.status = 200 ∧
    ∃ j, (workerFetch request env doFetch now).2.body = RespBody.json j ∧
      (j.getField "status").isSome = true ∧
      (j.getField "service").isSome = true ∧
      (j.getField "timestamp").isSome = true ∧
      ∃ e, j.getField "endpoints" = some e ∧
        e.getField "openai" = some (JValue.str "/v1/*") ∧
        e.getField "anthropic" = some (JValue.str "/anthropic/*") := by
  have hne : request.method ≠ "OPTIONS" := by rw [hm]; decide
  rw [workerFetch_health request env doFetch now hne hp.symm]
  exact ⟨rfl, rfl, _, rfl, rfl, rfl, rfl, _, rfl, rfl, rfl⟩

theorem health_check_contract_witness :
    (workerFetch ⟨"GET", "/health", ⟨[]⟩, none⟩ ⟨none, none⟩
      (fun _ => FetchResult.err "down") "2024-01-01T00:00:00Z").2.status
      = 200 :=
  (health_check_contract _ _ _ _ rfl (Or.inr rfl)).2.1

/-- C10: a non-OPTIONS request to exactly `/v1` or exactly `/anthropic`
(no trailing slash) gets 404 and no upstream call: the route tests require
the trailing slash. -/
theorem bare_path_404 (request : Request) (env : Env)
    (doFetch : UpstreamRequest → FetchResult) (now : String)
    (hm : request.method ≠ "OPTIONS")
    (hp : request.path = "/v1" ∨ request.path = "/anthropic") :
    (workerFetch request env doFetch now).2.status = 404 ∧
    (workerFetch request env doFetch now).1 = [] := by
  rcases hp with hp | hp
  · have h1 : strStartsWith request.path "/v1/" = false := by rw [hp]; rfl
    have h2 : strStartsWith request.path "/anthropic/" = false := by
      rw [hp]; rfl
    have h3 : request.path ≠ "/" := by rw [hp]; decide
    have h4 : request.path ≠ "/health" := by rw [hp]; decide
    rw [workerFetch_notFound request env doFetch now hm h1 h2 h3 h4]
    exact ⟨rfl, rfl⟩
  · have h1 : strStartsWith request.path "/v1/" = false := by rw [hp]; rfl
    have h2 : strStartsWith request.path "/anthropic/" = false := by
      rw [hp]; rfl
    have h3 : request.path ≠ "/" := by rw [hp]; decide
    have h4 : request.path ≠ "/health" := by rw [hp]; decide
    rw [workerFetch_notFound request env doFetch now hm h1 h2 h3 h4]
    exact ⟨rfl, rfl⟩

theorem bare_path_404_witness :
    (workerFetch ⟨"POST", "/v1", ⟨[]⟩, none⟩ ⟨some "k", some "k2"⟩
      (fun _ => FetchResult.err "down") "t").2.status = 404 :=
  (bare_path_404 _ _ _ _ (by decide) (Or.inl rfl)).1

/-- C9 as frozen is false: it quantifies over every method, but an OPTIONS
request to an unmatched path gets 204 (CORS preflight), not 404. Witnessed
at the unmatched path `/nope`. -/
theorem unmatched_any_method_counterexample :
    strStartsWith "/nope" "/v1/" = false ∧
    strStartsWith "/nope" "/anthropic/" = false ∧
    "/nope" ≠ "/" ∧ "/nope" ≠ "/health" ∧
    (workerFetch ⟨"OPTIONS", "/nope", ⟨[]⟩, none⟩ ⟨none, none⟩
      (fun _ => FetchResult.err "down") "t").2.status = 204 :=
  ⟨rfl, rfl, by decide, by decide, rfl⟩

/-- C9 amended: every non-OPTIONS request whose path starts with neither
`/v1/` nor `/anthropic/` and is neither `/` nor `/health` gets a 404 JSON
not-found response carrying the CORS headers. -/
theorem unmatched_non_options_404 (request : Request) (env : Env)
    (doFetch : UpstreamRequest → FetchResult) (now : String)
    (hm : request.method ≠ "OPTIONS")
    (h1 : strStartsWith request.path "/v1/" = false)
    (h2 : strStartsWith request.path "/anthropic/" = false)
    (h3 : request.path ≠ "/") (h4 : request.path ≠ "/health") :
    (workerFetch request env doFetch now).2.status = 404 ∧
    (∃ j, (workerFetch request env doFetch now).2.body = RespBody.json j ∧
      j.getField "error" = some (JValue.str "Not Found")) ∧
    hasCorsHeaders (workerFetch request env doFetch now).2.headers := by
  rw [workerFetch_notFound request env doFetch now hm h1 h2 h3 h4]
  exact ⟨rfl, ⟨_, rfl, rfl⟩, hasCors_jsonCorsHeaders⟩

theorem unmatched_non_options_404_witness :
    (workerFetch ⟨"GET", "/nope", ⟨[]⟩, none⟩ ⟨some "k", none⟩
      (fun _ => FetchResult.err "down") "t").2.status = 404 :=
  (unmatched_non_options_404 ⟨"GET", "/nope", ⟨[]⟩, none⟩ ⟨some "k", none⟩
    (fun _ => FetchResult.err "down") "t" (by decide) rfl rfl (by decide)
    (by decide)).1

/-- C5: on either forwarding route with the corresponding key absent from
configuration, the worker responds 500 with a JSON body whose `error` field
is `Configuration Error`, and makes no upstream call. -/
theorem missing_key_500 (request : Request) (env : Env)
    (doFetch : UpstreamRequest → FetchResult) (now : String)
    (hm : request.method ≠ "OPTIONS")
    (hroute :
      (strStartsWith request.path "/v1/" = true ∧
        env.OPENAI_API_KEY = none) ∨
      (strStartsWith request.path "/anthropic/" = true ∧
        env.ANTHROPIC_API_KEY = none)) :
    (workerFetch request env doFetch now).1 = [] ∧
    (workerFetch request env doFetch now).2.status = 500 ∧
    ∃ j, (workerFetch request env doFetch now).2.body = RespBody.json j ∧
      j.getField "error" = some (JValue.str "Configuration Error") := by
  rcases hroute with ⟨hp, hk⟩ | ⟨hp, hk⟩
  · rw [workerFetch_v1 request env doFetch now hm hp]
    have hf : falsyKey env.OPENAI_API_KEY = true := by rw [hk]; rfl
    simp only [handleOpenAI, hf]
    split
    · exact ⟨rfl, rfl, _, rfl, rfl⟩
    · rename_i h
      exact absurd trivial h
  · rw [workerFetch_anthropic request env doFetch now hm hp]
    have hf : falsyKey env.ANTHROPIC_API_KEY = true := by rw [hk]; rfl
    simp only [handleAnthropic, hf]
    split
    · exact ⟨rfl, rfl, _, rfl, rfl⟩
    · rename_i h
      exact absurd trivial h

theorem missing_key_500_witness :
    (workerFetch ⟨"POST", "/v1/chat/completions", ⟨[]⟩, some "{}"⟩
      ⟨none, none⟩ (fun _ => FetchResult.err "down") "t").2.status = 500 :=
  (missing_key_500 ⟨"POST", "/v1/chat/completions", ⟨[]⟩, some "{}"⟩
    ⟨none, none⟩ (fun _ => FetchResult.err "down") "t" (by decide)
    (Or.inl ⟨by decide, rfl⟩)).2.1

/-- C6: on either forwarding route with the key configured, if the
upstream call throws, the worker responds 502 with a JSON body whose
`error` field is `Proxy Error` and whose `message` field is the failure's
message, and exactly one upstream attempt is made (no retry). -/
theorem upstream_failure_502 (request : Request) (env : Env)
    (doFetch : UpstreamRequest → FetchResult) (now : String) (msg : String)
    (hm : request.method ≠ "OPTIONS")
    (hroute :
      (strStartsWith request.path "/v1/" = true ∧
        falsyKey env.OPENAI_API_KEY = false) ∨
      (strStartsWith request.path "/anthropic/" = true ∧
        falsyKey env.ANTHROPIC_API_KEY = false))
    (hfail : ∀ ur, doFetch ur = FetchResult.err msg) :
    (workerFetch request env doFetch now).1.length = 1 ∧
    (workerFetch request env doFetch now).2.status = 502 ∧
    ∃ j, (workerFetch request env doFetch now).2.body = RespBody.json j ∧
      j.getField "error" = some (JValue.str "Proxy Error") ∧
      j.getField "message" = some (JValue.str msg) := by
  rcases hroute with ⟨hp, hk⟩ | ⟨hp, hk⟩
  · rw [workerFetch_v1 request env doFetch now hm hp]
    simp only [handleOpenAI, hk, hfail]
    split
    · rename_i h
      exact absurd h (by decide)
    · exact ⟨rfl, rfl, _, rfl, rfl, rfl⟩
  · rw [workerFetch_anthropic request env doFetch now hm hp]
    simp only [handleAnthropic, hk, hfail]
    split
    · rename_i h
      exact absurd h (by decide)
    · exact ⟨rfl, rfl, _, rfl, rfl, rfl⟩

theorem upstream_failure_502_witness :
    (workerFetch ⟨"POST", "/anthropic/v1/messages", ⟨[]⟩, some "{}"⟩
      ⟨none, some "ak"⟩ (fun _ => FetchResult.err "connection reset")
      "t").2.status = 502 :=
  (upstream_failure_502 ⟨"POST", "/anthropic/v1/messages", ⟨[]⟩, some "{}"⟩
    ⟨none, some "ak"⟩ (fun _ => FetchResult.err "connection reset") "t"
    "connection reset" (by decide) (Or.inr ⟨by decide, by decide⟩)
    (fun _ => rfl)).2.1

/-- C4: on either forwarding route with the key configured, if the
upstream call succeeds, the worker relays the upstream status, status text
and body unchanged, and its headers are the upstream headers with exactly
the three CORS headers added or overwritten. -/
theorem upstream_success_relay (request : Request) (env : Env)
    (doFetch : UpstreamRequest → FetchResult) (now : String)
    (upResp : UpstreamResponse)
    (hm : request.method ≠ "OPTIONS")
    (hroute :
      (strStartsWith request.path "/v1/" = true ∧
        falsyKey env.OPENAI_API_KEY = false) ∨
      (strStartsWith request.path "/anthropic/" = true ∧
        falsyKey env.ANTHROPIC_API_KEY = false))
    (hok : ∀ ur, doFetch ur = FetchResult.ok upResp) :
    (workerFetch request env doFetch now).2.status = upResp.status ∧
    (workerFetch request env doFetch now).2.statusText = upResp.statusText ∧
    (workerFetch request env doFetch now).2.body
      = RespBody.stream upResp.body ∧
    ∀ name : String,
      (workerFetch request env doFetch now).2.headers.get name =
        if lowerName name = "access-control-allow-origin" then some "*"
        else if lowerName name = "access-control-allow-methods" then
          some "GET, POST, PUT, DELETE, OPTIONS"
        else if lowerName name = "access-control-allow-headers" then
          some "Content-Type, Authorization, X-Requested-With"
        else upResp.headers.get name := by
  rcases hroute with ⟨hp, hk⟩ | ⟨hp, hk⟩
  · rw [workerFetch_v1 request env doFetch now hm hp]
    simp only [handleOpenAI, hk, hok]
    split
    · rename_i h
      exact absurd h (by decide)
    · exact ⟨rfl, rfl, rfl, fun name => get_corsFold upResp.headers name⟩
  · rw [workerFetch_anthropic request env doFetch now hm hp]
    simp only [handleAnthropic, hk, hok]
    split
    · rename_i h
      exact absurd h (by decide)
    · exact ⟨rfl, rfl, rfl, fun name => get_corsFold upResp.headers name⟩

theorem upstream_success_relay_witness :
    (workerFetch ⟨"POST", "/v1/chat/completions", ⟨[]⟩, some "{}"⟩
      ⟨some "sk", none⟩
      (fun _ => FetchResult.ok ⟨201, "Created", ⟨[]⟩, some "resp"⟩)
      "t").2.status = 201 :=
  (upstream_success_relay ⟨"POST", "/v1/chat/completions", ⟨[]⟩, some "{}"⟩
    ⟨some "sk", none⟩
    (fun _ => FetchResult.ok ⟨201, "Created", ⟨[]⟩, some "resp"⟩) "t"
    ⟨201, "Created", ⟨[]⟩, some "resp"⟩ (by decide)
    (Or.inl ⟨by decide, by decide⟩) (fun _ => rfl)).1

/-- C3: every response, for any request, configuration and upstream
outcome, carries the full CORS header set. -/
theorem every_response_has_cors (request : Request) (env : Env)
    (doFetch : UpstreamRequest → FetchResult) (now : String) :
    hasCorsHeaders (workerFetch request env doFetch now).2.headers := by
  by_cases hm : request.method = "OPTIONS"
  · rw [workerFetch_options request env doFetch now hm]
    exact hasCors_corsOnly
  · by_cases hv : strStartsWith request.path "/v1/" = true
    · rw [workerFetch_v1 request env doFetch now hm hv]
      exact hasCors_handleOpenAI request env request.path doFetch
    · by_cases ha : strStartsWith request.path "/anthropic/" = true
      · rw [workerFetch_anthropic request env doFetch now hm ha]
        exact hasCors_handleAnthropic request env request.path doFetch
      · by_cases hh : request.path = "/health" ∨ request.path = "/"
        · rw [workerFetch_health request env doFetch now hm hh]
          exact hasCors_jsonCorsHeaders
        · rw [workerFetch_notFound request env doFetch now hm
            (bool_false_of_not_true hv) (bool_false_of_not_true ha)
            (fun he => hh (Or.inr he)) (fun he => hh (Or.inl he))]
          exact hasCors_jsonCorsHeaders

lemma lowAuth : lowerName "Authorization" = "authorization" := rfl

lemma lowHost : lowerName "Host" = "host" := rfl

lemma lowXApiKey : lowerName "x-api-key" = "x-api-key" := rfl

lemma lowAnthVer : lowerName "anthropic-version" = "anthropic-version" := rfl

/-- C1: a non-OPTIONS request with path starting `/v1/` and the OpenAI key
configured makes exactly one upstream request, to
`https://api.openai.com` ++ the inbound path, with the inbound method, the
inbound headers except that Authorization is overwritten with
`Bearer <key>` and Host is removed, and the inbound body except that GET
requests carry no body. -/
theorem openai_forwarding (request : Request) (env : Env)
    (doFetch : UpstreamRequest → FetchResult) (now : String) (key : String)
    (hm : request.method ≠ "OPTIONS")
    (hp : strStartsWith request.path "/v1/" = true)
    (hk : env.OPENAI_API_KEY = some key) (hknz : key ≠ "") :
    ∃ r : UpstreamRequest,
      (workerFetch request env doFetch now).1 = [r] ∧
      r.url = "https://api.openai.com" ++ request.path ∧
      r.method = request.method ∧
      r.body = (if request.method = "GET" then none else request.body) ∧
      ∀ name : String, r.headers.get name =
        if lowerName name = "authorization" then some ("Bearer " ++ key)
        else if lowerName name = "host" then none
        else request.headers.get name := by
  have hfal : falsyKey env.OPENAI_API_KEY = false := by
    rw [hk]
    show key.isEmpty = false
    rcases hke : key.isEmpty with _ | _
    · rfl
    · exact absurd ((String.isEmpty_iff key).mp hke) hknz
  rw [workerFetch_v1 request env doFetch now hm hp,
    handleOpenAI_calls request env request.path doFetch hfal, hk]
  simp only [Option.getD_some]
  refine ⟨_, rfl, rfl, rfl, ?_, ?_⟩
  · by_cases hg : request.method = "GET"
    · simp [hg]
    · simp [hg, bne_iff_ne.mpr hg]
  · intro name
    by_cases h1 : lowerName name = "authorization"
    · rw [if_pos h1,
        HeaderMap.get_delete_other _ _ _ (by rw [lowHost, h1]; decide),
        HeaderMap.get_set_self _ _ _ _ (by rw [lowAuth]; exact h1)]
    · rw [if_neg h1]
      by_cases h2 : lowerName name = "host"
      · rw [if_pos h2,
          HeaderMap.get_delete_self _ _ _ (by rw [lowHost]; exact h2)]
      · rw [if_neg h2,
          HeaderMap.get_delete_other _ _ _ (by rw [lowHost]; exact h2),
          HeaderMap.get_set_other _ _ _ _ (by rw [lowAuth]; exact h1)]

theorem openai_forwarding_witness :
    (workerFetch ⟨"POST", "/v1/chat/completions",
      ⟨[("Host", "proxy.example"), ("Content-Type", "application/json")]⟩,
      some "{}"⟩ ⟨some "sk-test", none⟩
      (fun _ => FetchResult.err "down") "t").1.length = 1 := by
  rcases openai_forwarding ⟨"POST", "/v1/chat/completions",
      ⟨[("Host", "proxy.example"), ("Content-Type", "application/json")]⟩,
      some "{}"⟩ ⟨some "sk-test", none⟩
      (fun _ => FetchResult.err "down") "t" "sk-test" (by decide) (by decide)
      rfl (by decide) with ⟨r, hlist, _⟩
  rw [hlist]
  rfl

/-- C2: a non-OPTIONS request with path `/anthropic/…` and the Anthropic
key configured makes one upstream request to `https://api.anthropic.com`
++ the path with its leading `/anthropic` stripped, with the inbound
method, and the inbound headers except that `x-api-key` is set to the key,
`anthropic-version` is set to `2023-06-01`, and Host is removed. -/
theorem anthropic_forwarding (request : Request) (env : Env)
    (doFetch : UpstreamRequest → FetchResult) (now : String)
    (key rest : String)
    (hm : request.method ≠ "OPTIONS")
    (hp : request.path = "/anthropic/" ++ rest)
    (hk : env.ANTHROPIC_API_KEY = some key) (hknz : key ≠ "") :
    ∃ r : UpstreamRequest,
      (workerFetch request env doFetch now).1 = [r] ∧
      r.url = "https://api.anthropic.com/" ++ rest ∧
      r.method = request.method ∧
      ∀ name : String, r.headers.get name =
        if lowerName name = "x-api-key" then some key
        else if lowerName name = "anthropic-version" then some "2023-06-01"
        else if lowerName name = "host" then none
        else request.headers.get name := by
  have hsw : strStartsWith request.path "/anthropic/" = true := by
    rw [hp]
    exact strStartsWith_of_append _ _
  have hfal : falsyKey env.ANTHROPIC_API_KEY = false := by
    rw [hk]
    show key.isEmpty = false
    rcases hke : key.isEmpty with _ | _
    · rfl
    · exact absurd ((String.isEmpty_iff key).mp hke) hknz
  rw [workerFetch_anthropic request env doFetch now hm hsw,
    handleAnthropic_calls request env request.path doFetch hfal, hk]
  simp only [Option.getD_some]
  refine ⟨_, rfl, ?_, rfl, ?_⟩
  · show "https://api.anthropic.com"
      ++ strReplaceFirst request.path "/anthropic" "" = _
    rw [hp, strReplaceFirst_anthropic]
    rfl
  · intro name
    by_cases h1 : lowerName name = "x-api-key"
    · rw [if_pos h1,
        HeaderMap.get_delete_other _ _ _ (by rw [lowHost, h1]; decide),
        HeaderMap.get_set_other _ _ _ _ (by rw [lowAnthVer, h1]; decide),
        HeaderMap.get_set_self _ _ _ _ (by rw [lowXApiKey]; exact h1)]
    · rw [if_neg h1]
      by_cases h2 : lowerName name = "anthropic-version"
      · rw [if_pos h2,
          HeaderMap.get_delete_other _ _ _ (by rw [lowHost, h2]; decide),
          HeaderMap.get_set_self _ _ _ _ (by rw [lowAnthVer]; exact h2)]
      · rw [if_neg h2]
        by_cases h3 : lowerName name = "host"
        · rw [if_pos h3,
            HeaderMap.get_delete_self _ _ _ (by rw [lowHost]; exact h3)]
        · rw [if_neg h3,
            HeaderMap.get_delete_other _ _ _ (by rw [lowHost]; exact h3),
            HeaderMap.get_set_other _ _ _ _ (by rw [lowAnthVer]; exact h2),
            HeaderMap.get_set_other _ _ _ _ (by rw [lowXApiKey]; exact h1)]

theorem anthropic_forwarding_witness :
    (workerFetch ⟨"POST", "/anthropic/v1/messages", ⟨[]⟩, some "{}"⟩
      ⟨none, some "ak-test"⟩ (fun _ => FetchResult.err "down")
      "t").1.length = 1 := by
  rcases anthropic_forwarding
      ⟨"POST", "/anthropic/v1/messages", ⟨[]⟩, some "{}"⟩
      ⟨none, some "ak-test"⟩ (fun _ => FetchResult.err "down") "t" "ak-test"
      "v1/messages" (by decide) rfl rfl (by decide) with ⟨r, hlist, _⟩
  rw [hlist]
  rfl

end Guidedog
